import Mathlib

/-!
# Follow Registry and Positioning Engine — shallow embedding

This file embeds the core of `react-animated-overlay` (the `FollowerProvider`
component and its helpers in `src/components/FollowerSystem.tsx`) as pure Lean
definitions, and proves the specification's claims about it.

Modelling conventions:
* JS `Map<string, V>` is an association list `List (String × V)` with
  `mGet` / `mSet` / `mDel` mirroring `get` / `set` / `delete`.
* JS `Set` of callbacks (insertion-ordered, duplicate-free) is a `List Nat`
  of opaque callback identifiers; `addSub` mirrors `Set.add`.
* An opaque `HTMLElement` handle is a `Nat` (`Target`); `HTMLElement | null`
  is `Option Target`.  Opaque `ReactNode` content payloads are `Nat`
  (`Content`); `ReactNode | null` is `Option Content`.
* Callback behaviour is an environment `thr : Nat → Bool` saying which
  callbacks throw when invoked.  `Set.forEach` aborts on a thrown exception
  and lets it escape, so notification results carry the list of invocations
  that actually ran plus a `threw` flag.  All store mutations in the source
  happen before the notification loop, so the post-state never depends on
  `thr`.
* `setTimeout` / `clearTimeout` are modelled with an explicit list of pending
  timers carrying fresh numeric handles, a `timeoutRefs` map mirroring the
  provider's `timeoutRefs` ref, a clock `now`, and a `fireTimer` step the
  runtime may take once a timer's deadline has passed.
-/

namespace FollowerSystem

/-- JS `Map.get`: the value stored at key `k`, or `none`. -/
def mGet (m : List (String × α)) (k : String) : Option α :=
  match m.find? (fun p => p.1 == k) with
  | some p => some p.2
  | none => none

/-- JS `Map.delete`: drop the entry at key `k` (no-op when absent). -/
def mDel (m : List (String × α)) (k : String) : List (String × α) :=
  m.filter (fun p => p.1 != k)

/-- JS `Map.set`: store `v` at key `k`, overwriting any previous entry. -/
def mSet (m : List (String × α)) (k : String) (v : α) : List (String × α) :=
  (k, v) :: mDel m k

/-- JS `Set.add` on an insertion-ordered, duplicate-free callback set. -/
def addSub (l : List Nat) (cb : Nat) : List Nat :=
  if cb ∈ l then l else l ++ [cb]

/-- Opaque `HTMLElement` handle. -/
abbrev Target := Nat

/-- `AltTarget = { x: number, y: number }`. -/
structure AltTarget where
  x : Int
  y : Int
deriving DecidableEq, Repr

/-- Opaque `ReactNode` content payload. -/
abbrev Content := Nat

/-- `springConfig?: { stiffness?; damping?; mass? }`. -/
structure SpringConfig where
  stiffness : Option Nat := none
  damping : Option Nat := none
  mass : Option Nat := none
deriving DecidableEq, Repr

/-- `FollowerState = { inertialMode?: boolean; springConfig?: {...} }`. -/
structure FollowerState where
  inertialMode : Option Bool := none
  springConfig : Option SpringConfig := none
deriving DecidableEq, Repr

/-- The empty object `{}` used as the default follower state. -/
def FollowerState.empty : FollowerState := {}

/-- One pending `setTimeout` eviction callback: its numeric handle, the
follower id it will clean up, and the absolute time at which it fires. -/
structure Timer where
  handle : Nat
  followerId : String
  fireAt : Nat
deriving DecidableEq, Repr

/-- The mutable refs held by `FollowerProvider`, plus the timer runtime. -/
structure SysState where
  followerStates : List (String × FollowerState) := []
  followTargets : List (String × Target) := []
  altTargets : List (String × AltTarget) := []
  followerContentRefs : List (String × Content) := []
  timeoutRefs : List (String × Nat) := []
  targetSubscribers : List (String × List Nat) := []
  altTargetSubscribers : List (String × List Nat) := []
  followerStateSubscribers : List (String × List Nat) := []
  activeFollowerIds : List String := []
  pendingTimers : List Timer := []
  nextHandle : Nat := 0
  now : Nat := 0
deriving DecidableEq, Repr

/-- The provider's initial state: every ref starts empty. -/
def initialState : SysState := {}

/-- Result of an operation that notifies subscribers: the post-state, the
invocations `(callback, value)` that actually ran in order, and whether an
exception escaped the notification loop. -/
structure OpResult (α : Type) where
  state : SysState
  notified : List (Nat × α)
  threw : Bool

/-- `subscribers.forEach(callback => callback(v))` under the throw
environment `thr`: invocations run in registration order; a throwing
callback is still invoked, but aborts the loop and the exception escapes. -/
def runCallbacks (thr : Nat → Bool) (v : α) : List Nat → List (Nat × α) × Bool
  | [] => ([], false)
  | cb :: rest =>
      if thr cb then ([(cb, v)], true)
      else
        let r := runCallbacks thr v rest
        ((cb, v) :: r.1, r.2)

/-- The body of the `setTimeout` callback in `setTargetReference` (and the
tail of `cleanupFollower`): delete all four facts, drop the id from the
active set, drop the tracked timeout handle, and drop all three subscriber
sets for the id. -/
def evictionCallback (id : String) (s : SysState) : SysState :=
  { s with
    followTargets := mDel s.followTargets id
    altTargets := mDel s.altTargets id
    followerStates := mDel s.followerStates id
    followerContentRefs := mDel s.followerContentRefs id
    activeFollowerIds := s.activeFollowerIds.filter (fun x => x != id)
    timeoutRefs := mDel s.timeoutRefs id
    targetSubscribers := mDel s.targetSubscribers id
    altTargetSubscribers := mDel s.altTargetSubscribers id
    followerStateSubscribers := mDel s.followerStateSubscribers id }

/-- `setTargetReference(id, el)`.  When `el` is absent the provider schedules
a fresh 200ms eviction timeout, records its handle in `timeoutRefs`
(overwriting, not cancelling, any handle already tracked there), deletes the
target entry immediately and notifies the target subscribers with `null`.
When `el` is present it cancels the tracked timeout (if any), stores the
element and notifies the target subscribers with it. -/
def setTargetReference (thr : Nat → Bool) (id : String) (el : Option Target)
    (s : SysState) : OpResult (Option Target) :=
  match el with
  | none =>
      let handle := s.nextHandle
      let s1 : SysState :=
        { s with
          pendingTimers := s.pendingTimers ++ [⟨handle, id, s.now + 200⟩]
          nextHandle := handle + 1
          timeoutRefs := mSet s.timeoutRefs id handle
          followTargets := mDel s.followTargets id }
      let subs := (mGet s1.targetSubscribers id).getD []
      let r := runCallbacks thr (none : Option Target) subs
      ⟨s1, r.1, r.2⟩
  | some el =>
      let s1 : SysState :=
        match mGet s.timeoutRefs id with
        | some h =>
            { s with
              pendingTimers := s.pendingTimers.filter (fun tm => tm.handle != h)
              timeoutRefs := mDel s.timeoutRefs id }
        | none => s
      let s2 : SysState := { s1 with followTargets := mSet s1.followTargets id el }
      let subs := (mGet s2.targetSubscribers id).getD []
      let r := runCallbacks thr (some el) subs
      ⟨s2, r.1, r.2⟩

/-- `setAltTarget(id, altTarget)`: store or delete the point, then notify
the alt-target subscribers with the new value. -/
def setAltTarget (thr : Nat → Bool) (id : String) (p : Option AltTarget)
    (s : SysState) : OpResult (Option AltTarget) :=
  let s1 : SysState :=
    match p with
    | some v => { s with altTargets := mSet s.altTargets id v }
    | none => { s with altTargets := mDel s.altTargets id }
  let subs := (mGet s1.altTargetSubscribers id).getD []
  let r := runCallbacks thr p subs
  ⟨s1, r.1, r.2⟩

/-- `setFollowerContent(id, content)`: a truthy content is stored and the id
added to `activeFollowerIds`; an absent content is deleted and the id
removed, all within the same synchronous call. -/
def setFollowerContent (id : String) (content : Option Content)
    (s : SysState) : SysState :=
  match content with
  | some c =>
      { s with
        followerContentRefs := mSet s.followerContentRefs id c
        activeFollowerIds :=
          if id ∈ s.activeFollowerIds then s.activeFollowerIds
          else s.activeFollowerIds ++ [id] }
  | none =>
      { s with
        followerContentRefs := mDel s.followerContentRefs id
        activeFollowerIds := s.activeFollowerIds.filter (fun x => x != id) }

/-- `setFollowerState(id, stateOrUpdater)`: both the object form and the
updater form compute the new state from the current one (`{}` when absent),
store it, and notify the follower-state subscribers. -/
def setFollowerState (thr : Nat → Bool) (id : String)
    (upd : FollowerState → FollowerState) (s : SysState) : OpResult FollowerState :=
  let currentState := (mGet s.followerStates id).getD FollowerState.empty
  let newState := upd currentState
  let s1 : SysState := { s with followerStates := mSet s.followerStates id newState }
  let subs := (mGet s1.followerStateSubscribers id).getD []
  let r := runCallbacks thr newState subs
  ⟨s1, r.1, r.2⟩

/-- `subscribeToTarget(id, callback)`: add the callback to the per-id set,
then immediately invoke it once with the current target
(`followTargets.get(id) || null`). -/
def subscribeToTarget (thr : Nat → Bool) (id : String) (cb : Nat)
    (s : SysState) : OpResult (Option Target) :=
  let subs := (mGet s.targetSubscribers id).getD []
  let s1 : SysState := { s with targetSubscribers := mSet s.targetSubscribers id (addSub subs cb) }
  let currentTarget := mGet s1.followTargets id
  ⟨s1, [(cb, currentTarget)], thr cb⟩

/-- `subscribeToAltTarget(id, callback)`: add the callback, then immediately
invoke it once with the current alt target (possibly `undefined`). -/
def subscribeToAltTarget (thr : Nat → Bool) (id : String) (cb : Nat)
    (s : SysState) : OpResult (Option AltTarget) :=
  let subs := (mGet s.altTargetSubscribers id).getD []
  let s1 : SysState := { s with altTargetSubscribers := mSet s.altTargetSubscribers id (addSub subs cb) }
  let currentAltTarget := mGet s1.altTargets id
  ⟨s1, [(cb, currentAltTarget)], thr cb⟩

/-- `subscribeFollowerState(id, callback)`: add the callback, then
immediately invoke it once with the current state (`{}` when absent). -/
def subscribeFollowerState (thr : Nat → Bool) (id : String) (cb : Nat)
    (s : SysState) : OpResult FollowerState :=
  let subs := (mGet s.followerStateSubscribers id).getD []
  let s1 : SysState := { s with followerStateSubscribers := mSet s.followerStateSubscribers id (addSub subs cb) }
  let currentState := (mGet s1.followerStates id).getD FollowerState.empty
  ⟨s1, [(cb, currentState)], thr cb⟩

/-- The body of the unsubscribe closure each subscribe function returns:
look up the per-id subscriber set; if present, delete the callback from it,
and when the set becomes empty delete the set itself. -/
def removeSubscriber (m : List (String × List Nat)) (id : String) (cb : Nat) :
    List (String × List Nat) :=
  match mGet m id with
  | none => m
  | some subs =>
      let subs' := subs.erase cb
      if subs'.length = 0 then mDel m id else mSet m id subs'

/-- Unsubscribe closure returned by `subscribeToTarget`. -/
def unsubscribeTarget (id : String) (cb : Nat) (s : SysState) : SysState :=
  { s with targetSubscribers := removeSubscriber s.targetSubscribers id cb }

/-- Unsubscribe closure returned by `subscribeToAltTarget`. -/
def unsubscribeAltTarget (id : String) (cb : Nat) (s : SysState) : SysState :=
  { s with altTargetSubscribers := removeSubscriber s.altTargetSubscribers id cb }

/-- Unsubscribe closure returned by `subscribeFollowerState`. -/
def unsubscribeFollowerState (id : String) (cb : Nat) (s : SysState) : SysState :=
  { s with followerStateSubscribers := removeSubscriber s.followerStateSubscribers id cb }

/-- `cleanupFollower(id)`: cancel the tracked timeout for the id (if any)
and synchronously perform the same cleanup the eviction callback performs. -/
def cleanupFollower (id : String) (s : SysState) : SysState :=
  let s1 : SysState :=
    match mGet s.timeoutRefs id with
    | some h =>
        { s with
          pendingTimers := s.pendingTimers.filter (fun tm => tm.handle != h)
          timeoutRefs := mDel s.timeoutRefs id }
    | none => s
  evictionCallback id s1

/-- The runtime lets wall-clock time pass. -/
def advanceTime (d : Nat) (s : SysState) : SysState :=
  { s with now := s.now + d }

/-- The runtime fires the pending timer with handle `h`, provided it is
still scheduled and its deadline has passed: the timer is consumed and its
eviction callback runs. -/
def fireTimer (h : Nat) (s : SysState) : SysState :=
  match s.pendingTimers.find? (fun tm => tm.handle == h) with
  | none => s
  | some tm =>
      if tm.fireAt ≤ s.now then
        evictionCallback tm.followerId
          { s with pendingTimers := s.pendingTimers.filter (fun t2 => t2.handle != h) }
      else s

/-! ## Reachable provider states -/

/-- States reachable from the freshly mounted provider by any interleaving of
registry operations, timer firings and passage of time. -/
inductive Reachable : SysState → Prop
  | init : Reachable initialState
  | stepSetTargetReference {s : SysState} (thr : Nat → Bool) (id : String)
      (el : Option Target) : Reachable s → Reachable (setTargetReference thr id el s).state
  | stepSetAltTarget {s : SysState} (thr : Nat → Bool) (id : String)
      (p : Option AltTarget) : Reachable s → Reachable (setAltTarget thr id p s).state
  | stepSetFollowerContent {s : SysState} (id : String) (content : Option Content) :
      Reachable s → Reachable (setFollowerContent id content s)
  | stepSetFollowerState {s : SysState} (thr : Nat → Bool) (id : String)
      (upd : FollowerState → FollowerState) :
      Reachable s → Reachable (setFollowerState thr id upd s).state
  | stepSubscribeToTarget {s : SysState} (thr : Nat → Bool) (id : String) (cb : Nat) :
      Reachable s → Reachable (subscribeToTarget thr id cb s).state
  | stepSubscribeToAltTarget {s : SysState} (thr : Nat → Bool) (id : String) (cb : Nat) :
      Reachable s → Reachable (subscribeToAltTarget thr id cb s).state
  | stepSubscribeFollowerState {s : SysState} (thr : Nat → Bool) (id : String) (cb : Nat) :
      Reachable s → Reachable (subscribeFollowerState thr id cb s).state
  | stepUnsubscribeTarget {s : SysState} (id : String) (cb : Nat) :
      Reachable s → Reachable (unsubscribeTarget id cb s)
  | stepUnsubscribeAltTarget {s : SysState} (id : String) (cb : Nat) :
      Reachable s → Reachable (unsubscribeAltTarget id cb s)
  | stepUnsubscribeFollowerState {s : SysState} (id : String) (cb : Nat) :
      Reachable s → Reachable (unsubscribeFollowerState id cb s)
  | stepCleanupFollower {s : SysState} (id : String) :
      Reachable s → Reachable (cleanupFollower id s)
  | stepFireTimer {s : SysState} (h : Nat) : Reachable s → Reachable (fireTimer h s)
  | stepAdvanceTime {s : SysState} (d : Nat) : Reachable s → Reachable (advanceTime d s)

/-- The render layer's portal body: iterate the active follower ids and skip
any whose content is absent (`if (!content) return null`). -/
def renderedFollowerIds (s : SysState) : List String :=
  s.activeFollowerIds.filter (fun id => (mGet s.followerContentRefs id).isSome)

/-- The invariant tying the active-id set to content presence. -/
def ActiveMatchesContent (s : SysState) : Prop :=
  ∀ x : String, x ∈ s.activeFollowerIds ↔ (mGet s.followerContentRefs x).isSome

/-! ## Follower unit render layer (`useFollowerStateInternal` / `Follower`) -/

/-- The rectangle reported by the virtual element's `getBoundingClientRect`
when an alt target `{x, y}` is installed: `top` is the point's `y`, `left`
its `x`, every other field zero. -/
structure VirtualElRect where
  x : Int
  y : Int
  top : Int
  left : Int
  bottom : Int
  right : Int
  width : Int
  height : Int
deriving DecidableEq, Repr

/-- The virtual element built from an alt target. -/
def virtualElRect (p : AltTarget) : VirtualElRect :=
  { x := 0, y := 0, top := p.y, left := p.x, bottom := 0, right := 0
    width := 0, height := 0 }

/-- The positioning source finally handed to the floating-ui refs. -/
inductive PositionReference
  | virtualEl (rect : VirtualElRect)
  | element (el : Option Target)
deriving DecidableEq, Repr

/-- The positioning effect of `useFollowerStateInternal`: when an alt target
is present, a virtual element carrying its coordinate is installed as the
position reference; otherwise the follow target element (or `null`) is set
as the reference. -/
def resolvePositionReference (followEntry : Option Target)
    (altTarget : Option AltTarget) : PositionReference :=
  match altTarget with
  | some p => PositionReference.virtualEl (virtualElRect p)
  | none => PositionReference.element followEntry

/-- The inputs a single render of a follower unit reads. -/
structure RenderInput where
  shouldBeVisible : Bool
  isOpen : Bool
deriving DecidableEq, Repr

/-- `shouldAnimate = shouldBeVisible && isInitiallyPositioned.current`. -/
def shouldAnimateOf (isInitiallyPositioned shouldBeVisible : Bool) : Bool :=
  shouldBeVisible && isInitiallyPositioned

/-- The after-render effect: once `isInitiallyPositioned` is set it stays
set; otherwise it becomes set on the first open. -/
def markInitiallyPositioned (flag isOpen : Bool) : Bool :=
  if flag then flag else if isOpen then true else flag

/-- The non-inertial follower div's `transition` style. -/
def transitionStyle (animate : Bool) : String :=
  if animate then "all 0.3s ease-in-out" else "none"

/-- The `shouldAnimate` value of each successive render, starting from the
given `isInitiallyPositioned` flag and applying the after-render effect
between renders. -/
def renderTrace (flag : Bool) : List RenderInput → List Bool
  | [] => []
  | inp :: rest =>
      shouldAnimateOf flag inp.shouldBeVisible ::
        renderTrace (markInitiallyPositioned flag inp.isOpen) rest

/-! ## Concrete scenario states used by counterexamples and witnesses -/

/-- A callback environment in which no callback throws. -/
def thrNever : Nat → Bool := fun _ => false

/-- A callback environment in which exactly callback `1` throws. -/
def thrOn1 : Nat → Bool := fun n => n == 1

/-- Provider state with alt-target callbacks `1` then `2` subscribed for
`"a"` (registration order `[1, 2]`). -/
def cexState : SysState :=
  (subscribeToAltTarget thrNever "a" 2
    (subscribeToAltTarget thrNever "a" 1 initialState).state).state

/-- C10 scenario, step 0: id `"x"` registered with an anchor and content. -/
def c10Start : SysState :=
  setFollowerContent "x" (some 7)
    (setTargetReference thrNever "x" (some 1) initialState).state

/-- C10 scenario after the first `setTargetReference("x", null)` at t=0. -/
def c10AfterFirstAbsent : SysState :=
  (setTargetReference thrNever "x" none c10Start).state

/-- C10 scenario after a second `setTargetReference("x", null)` at t=50. -/
def c10AfterSecondAbsent : SysState :=
  (setTargetReference thrNever "x" none (advanceTime 50 c10AfterFirstAbsent)).state

/-- C10 scenario after re-registering an anchor for `"x"` at t=100, inside
the latest (t=50 + 200ms) grace window. -/
def c10AfterReRegister : SysState :=
  (setTargetReference thrNever "x" (some 2)
    (advanceTime 50 c10AfterSecondAbsent)).state

/-- C10 scenario at t=200, when the first (untracked, uncancelled) eviction
timer fires. -/
def c10Final : SysState := fireTimer 0 (advanceTime 100 c10AfterReRegister)

/-- Witness state for C1: id `"a"` carries content `7` and an anchor. -/
def w1State : SysState :=
  setFollowerContent "a" (some 7)
    (setTargetReference thrNever "a" (some 1) initialState).state

/-- Witness state for C2: id `"b"` carries content, an alt target, a
follower state and one subscriber of each kind. -/
def w2State : SysState :=
  (subscribeFollowerState thrNever "b" 12
    (subscribeToAltTarget thrNever "b" 11
      (subscribeToTarget thrNever "b" 10
        (setAltTarget thrNever "b" (some ⟨1, 2⟩)
          (setFollowerState thrNever "b" (fun st => { st with inertialMode := some true })
            (setFollowerContent "b" (some 9)
              (setTargetReference thrNever "b" (some 3)
                initialState).state)).state).state).state).state).state

/-- Witness state for C5: id `"c"` has target subscribers `[4, 5]` and the
other three facts populated. -/
def w5State : SysState :=
  (setAltTarget thrNever "c" (some ⟨8, 9⟩)
    (setFollowerContent "c" (some 6)
      (subscribeToTarget thrNever "c" 5
        (subscribeToTarget thrNever "c" 4
          initialState).state).state)).state

/-- Witness state for C9: id `"d"` has the single target subscriber `5`. -/
def w9State : SysState :=
  (subscribeToTarget thrNever "d" 5 initialState).state

/-! ## Lemmas -/


theorem mGet_cons (p : String × α) (m : List (String × α)) (k : String) :
    mGet (p :: m) k = if p.1 == k then some p.2 else mGet m k := by
  simp only [mGet, List.find?_cons]
  cases h : p.1 == k <;> simp [h]

theorem mDel_cons (p : String × α) (m : List (String × α)) (k : String) :
    mDel (p :: m) k = if p.1 == k then mDel m k else p :: mDel m k := by
  simp only [mDel, List.filter_cons, bne]
  cases h : p.1 == k <;> simp [h]

theorem mGet_mDel_self (m : List (String × α)) (k : String) :
    mGet (mDel m k) k = none := by
  induction m with
  | nil => rfl
  | cons p m ih =>
    rw [mDel_cons]
    cases h : p.1 == k with
    | true => simpa [h] using ih
    | false => simpa [mGet_cons, h] using ih

theorem mGet_mDel_ne (m : List (String × α)) (k k' : String) (h : k' ≠ k) :
    mGet (mDel m k) k' = mGet m k' := by
  induction m with
  | nil => rfl
  | cons p m ih =>
    by_cases hp : p.1 = k
    · simp [mDel_cons, mGet_cons, hp, ih, Ne.symm h]
    · simp [mDel_cons, mGet_cons, hp, ih]

theorem mGet_mSet_self (m : List (String × α)) (k : String) (v : α) :
    mGet (mSet m k v) k = some v := by
  simp [mSet, mGet_cons]

theorem mGet_mSet_ne (m : List (String × α)) (k k' : String) (v : α) (h : k' ≠ k) :
    mGet (mSet m k v) k' = mGet m k' := by
  have : (k == k') = false := by
    simp
    exact fun hh => h hh.symm
  simp [mSet, mGet_cons, this, mGet_mDel_ne m k k' h]

theorem mDel_mDel_self (m : List (String × α)) (k : String) :
    mDel (mDel m k) k = mDel m k := by
  simp [mDel, List.filter_filter]

theorem mSet_mSet_self (m : List (String × α)) (k : String) (v w : α) :
    mSet (mSet m k v) k w = mSet m k w := by
  have hk : (k != k) = false := by simp
  simp [mSet, mDel_cons, mDel_mDel_self]

theorem runCallbacks_no_throw (thr : Nat → Bool) (v : α) (l : List Nat)
    (h : ∀ cb ∈ l, thr cb = false) :
    runCallbacks thr v l = (l.map (fun cb => (cb, v)), false) := by
  induction l with
  | nil => rfl
  | cons cb rest ih =>
    have hcb : thr cb = false := h cb (List.mem_cons_self cb rest)
    have hrest : ∀ c ∈ rest, thr c = false := fun c hc => h c (List.mem_cons_of_mem cb hc)
    simp [runCallbacks, hcb, ih hrest]

theorem runCallbacks_threw (thr : Nat → Bool) (v : α) (l : List Nat) :
    (runCallbacks thr v l).2 = l.any thr := by
  induction l with
  | nil => rfl
  | cons cb rest ih =>
    cases h : thr cb <;> simp [runCallbacks, h, ih]

theorem runCallbacks_order (thr : Nat → Bool) (v : α) (l : List Nat) :
    (∃ t, l = (runCallbacks thr v l).1.map Prod.fst ++ t) ∧
      ∀ pr ∈ (runCallbacks thr v l).1, pr.2 = v := by
  induction l with
  | nil => exact ⟨⟨[], rfl⟩, by simp [runCallbacks]⟩
  | cons cb rest ih =>
    cases h : thr cb with
    | true => exact ⟨⟨rest, by simp [runCallbacks, h]⟩, by simp [runCallbacks, h]⟩
    | false =>
      obtain ⟨⟨t, ht⟩, hv⟩ := ih
      refine ⟨⟨t, ?_⟩, ?_⟩
      · simpa [runCallbacks, h] using ht
      · intro pr hpr
        simp only [runCallbacks, h] at hpr
        simp at hpr
        rcases hpr with h1 | h2
        · simp [h1]
        · exact hv pr (by simpa using h2)

theorem setTargetReference_preserves (thr : Nat → Bool) (id : String)
    (el : Option Target) (s : SysState) :
    (setTargetReference thr id el s).state.activeFollowerIds = s.activeFollowerIds ∧
      (setTargetReference thr id el s).state.followerContentRefs = s.followerContentRefs := by
  cases el with
  | none => exact ⟨rfl, rfl⟩
  | some el => cases h : mGet s.timeoutRefs id <;> simp [setTargetReference, h]

theorem evictionCallback_inv (id : String) (s : SysState)
    (hs : ActiveMatchesContent s) : ActiveMatchesContent (evictionCallback id s) := by
  intro x
  by_cases hx : x = id
  · subst hx
    simp [evictionCallback, mGet_mDel_self, List.mem_filter]
  · simp [evictionCallback, List.mem_filter, mGet_mDel_ne _ _ _ hx, hs x, hx]

theorem setFollowerContent_inv (id : String) (content : Option Content) (s : SysState)
    (hs : ActiveMatchesContent s) : ActiveMatchesContent (setFollowerContent id content s) := by
  intro x
  cases content with
  | some c =>
    by_cases hx : x = id
    · subst hx
      simp only [setFollowerContent, mGet_mSet_self, Option.isSome_some]
      split <;> simp_all
    · simp only [setFollowerContent, mGet_mSet_ne _ _ _ _ hx]
      rw [← hs x]
      split <;> simp [hx]
  | none =>
    by_cases hx : x = id
    · subst hx
      simp [setFollowerContent, mGet_mDel_self, List.mem_filter]
    · simp [setFollowerContent, List.mem_filter, mGet_mDel_ne _ _ _ hx, hs x, hx]

theorem cleanupFollower_inv (id : String) (s : SysState)
    (hs : ActiveMatchesContent s) : ActiveMatchesContent (cleanupFollower id s) := by
  unfold cleanupFollower
  cases h : mGet s.timeoutRefs id with
  | none => exact evictionCallback_inv id s hs
  | some hdl => exact evictionCallback_inv id _ (by intro x; exact hs x)

theorem fireTimer_inv (h : Nat) (s : SysState)
    (hs : ActiveMatchesContent s) : ActiveMatchesContent (fireTimer h s) := by
  unfold fireTimer
  cases hf : s.pendingTimers.find? (fun tm => tm.handle == h) with
  | none => exact hs
  | some tm =>
    by_cases ht : tm.fireAt ≤ s.now
    · simp only [ht, if_true]
      exact evictionCallback_inv tm.followerId _ (by intro x; exact hs x)
    · simp only [ht, if_false]
      exact hs

/-- Every reachable provider state satisfies the active-iff-content
invariant. -/
theorem reachable_activeMatchesContent {s : SysState} (hs : Reachable s) :
    ActiveMatchesContent s := by
  induction hs with
  | init => intro x; simp [initialState, mGet, renderedFollowerIds]
  | stepSetTargetReference thr id el _ ih =>
    intro x
    obtain ⟨h1, h2⟩ := setTargetReference_preserves thr id el _
    rw [h1, h2]
    exact ih x
  | stepSetAltTarget thr id p _ ih =>
    intro x
    cases p <;> exact ih x
  | stepSetFollowerContent id content _ ih => exact setFollowerContent_inv id content _ ih
  | stepSetFollowerState thr id upd _ ih => exact fun x => ih x
  | stepSubscribeToTarget thr id cb _ ih => exact fun x => ih x
  | stepSubscribeToAltTarget thr id cb _ ih => exact fun x => ih x
  | stepSubscribeFollowerState thr id cb _ ih => exact fun x => ih x
  | stepUnsubscribeTarget id cb _ ih => exact fun x => ih x
  | stepUnsubscribeAltTarget id cb _ ih => exact fun x => ih x
  | stepUnsubscribeFollowerState id cb _ ih => exact fun x => ih x
  | stepCleanupFollower id _ ih => exact cleanupFollower_inv id _ ih
  | stepFireTimer h _ ih => exact fireTimer_inv h _ ih
  | stepAdvanceTime d _ ih => exact fun x => ih x

theorem mem_addSub (l : List Nat) (cb : Nat) : cb ∈ addSub l cb := by
  unfold addSub
  split
  · assumption
  · simp

theorem removeSubscriber_of_none (m : List (String × List Nat)) (id : String) (cb : Nat)
    (hm : mGet m id = none) : removeSubscriber m id cb = m := by
  simp [removeSubscriber, hm]

theorem removeSubscriber_idem (m : List (String × List Nat)) (id : String) (cb : Nat)
    (hnodup : ((mGet m id).getD []).Nodup) :
    removeSubscriber (removeSubscriber m id cb) id cb = removeSubscriber m id cb := by
  cases hm : mGet m id with
  | none => rw [removeSubscriber_of_none m id cb hm, removeSubscriber_of_none m id cb hm]
  | some subs =>
    rw [hm] at hnodup
    simp only [Option.getD_some] at hnodup
    by_cases h0 : (subs.erase cb).length = 0
    · simp [removeSubscriber, hm, h0, mGet_mDel_self]
    · have hnm : cb ∉ subs.erase cb := by
        intro hmem
        exact ((hnodup.mem_erase_iff).mp hmem).1 rfl
      have herase : (subs.erase cb).erase cb = subs.erase cb := List.erase_of_not_mem hnm
      simp [removeSubscriber, hm, h0, mGet_mSet_self, herase, mSet_mSet_self]

theorem removeSubscriber_last (m : List (String × List Nat)) (id : String) (cb : Nat)
    (hm : mGet m id = some [cb]) : mGet (removeSubscriber m id cb) id = none := by
  simp [removeSubscriber, hm, List.erase_cons_head, mGet_mDel_self]

/-! ## Claim theorems -/

/-- C6: `subscribeToTarget`, `subscribeToAltTarget` and
`subscribeFollowerState` each register the callback and synchronously invoke
it exactly once — with the store's current anchor (`null` when absent),
current virtual point (possibly absent), or current follower state — with no
further publish required before that first invocation. -/
theorem claim_C6_subscribe_replay (thr : Nat → Bool) (id : String) (cb : Nat)
    (s : SysState) :
    (subscribeToTarget thr id cb s).notified = [(cb, mGet s.followTargets id)] ∧
      cb ∈ (mGet (subscribeToTarget thr id cb s).state.targetSubscribers id).getD [] ∧
      (subscribeToAltTarget thr id cb s).notified = [(cb, mGet s.altTargets id)] ∧
      cb ∈ (mGet (subscribeToAltTarget thr id cb s).state.altTargetSubscribers id).getD [] ∧
      (subscribeFollowerState thr id cb s).notified =
        [(cb, (mGet s.followerStates id).getD FollowerState.empty)] ∧
      cb ∈ (mGet (subscribeFollowerState thr id cb s).state.followerStateSubscribers id).getD [] := by
  refine ⟨rfl, ?_, rfl, ?_, rfl, ?_⟩ <;>
    simpa [subscribeToTarget, subscribeToAltTarget, subscribeFollowerState,
      mGet_mSet_self] using mem_addSub _ cb

/-- C7: when both an anchor element and a virtual point are present, the
positioning effect installs the virtual element carrying the point's
coordinate (`left = x`, `top = y`) as the position reference — not the
anchor element — and the anchor element is installed only when the virtual
point is absent. -/
theorem claim_C7_virtual_point_precedence (a : Target) (p : AltTarget) :
    resolvePositionReference (some a) (some p) =
        PositionReference.virtualEl (virtualElRect p) ∧
      (virtualElRect p).left = p.x ∧ (virtualElRect p).top = p.y ∧
      resolvePositionReference (some a) none = PositionReference.element (some a) :=
  ⟨rfl, rfl, rfl, rfl⟩

theorem renderTrace_marked (n : Nat) :
    renderTrace true (List.replicate n ⟨true, true⟩) = List.replicate n true := by
  induction n with
  | zero => rfl
  | succ n ih =>
    simp [List.replicate_succ, renderTrace, shouldAnimateOf, markInitiallyPositioned, ih]

/-- C8: across any run of `n + 1` visible, open renders of a follower unit
starting with `isInitiallyPositioned` unset, the first render has
`shouldAnimate = false` (its `transition` style is `"none"`) and every
subsequent render animates (`transition: all 0.3s ease-in-out`). -/
theorem claim_C8_first_placement_snaps (n : Nat) :
    renderTrace false (List.replicate (n + 1) ⟨true, true⟩) =
        false :: List.replicate n true ∧
      (renderTrace false (List.replicate (n + 1) ⟨true, true⟩)).map transitionStyle =
        "none" :: List.replicate n "all 0.3s ease-in-out" := by
  have h : renderTrace false (List.replicate (n + 1) ⟨true, true⟩) =
      false :: List.replicate n true := by
    simp [List.replicate_succ, renderTrace, shouldAnimateOf, markInitiallyPositioned,
      renderTrace_marked]
  refine ⟨h, ?_⟩
  rw [h]
  simp [transitionStyle, List.map_replicate]

/-- C9: the unsubscribe closure returned by `subscribeToTarget` is
idempotent and total: running it twice equals running it once; running it
when the id's subscriber set is already gone leaves the state unchanged; and
removing the last subscriber deletes the per-id set itself. -/
theorem claim_C9_unsubscribe_idempotent (s : SysState) (id : String) (cb : Nat)
    (hnodup : ((mGet s.targetSubscribers id).getD []).Nodup) :
    unsubscribeTarget id cb (unsubscribeTarget id cb s) = unsubscribeTarget id cb s ∧
      (mGet s.targetSubscribers id = none → unsubscribeTarget id cb s = s) ∧
      (mGet s.targetSubscribers id = some [cb] →
        mGet (unsubscribeTarget id cb s).targetSubscribers id = none) := by
  refine ⟨?_, ?_, ?_⟩
  · show ({ s with targetSubscribers :=
        removeSubscriber (removeSubscriber s.targetSubscribers id cb) id cb } : SysState) = _
    rw [removeSubscriber_idem s.targetSubscribers id cb hnodup]
    rfl
  · intro hm
    show ({ s with targetSubscribers := removeSubscriber s.targetSubscribers id cb } : SysState) = s
    rw [removeSubscriber_of_none s.targetSubscribers id cb hm]
  · intro hm
    exact removeSubscriber_last s.targetSubscribers id cb hm

/-- C9 witness: on the concrete state whose only subscriber for `"d"` is
callback `5`, double unsubscribe equals single unsubscribe, unsubscribing an
id with no subscriber set is a no-op, and the last departure deletes the
set. -/
theorem claim_C9_witness :
    ((mGet w9State.targetSubscribers "d").getD []).Nodup ∧
      (unsubscribeTarget "d" 5 (unsubscribeTarget "d" 5 w9State) =
          unsubscribeTarget "d" 5 w9State ∧
        (mGet w9State.targetSubscribers "d" = none → unsubscribeTarget "d" 5 w9State = w9State) ∧
        (mGet w9State.targetSubscribers "d" = some [5] →
          mGet (unsubscribeTarget "d" 5 w9State).targetSubscribers "d" = none)) :=
  ⟨by decide, claim_C9_unsubscribe_idempotent w9State "d" 5 (by decide)⟩

/-- C4 counterexample: with callbacks `1` then `2` registered for `"a"` (in
that order) and callback `1` throwing, publishing a virtual-point change
invokes only callback `1` — callback `2` is never notified — and the
exception escapes into the publisher's control flow, refuting the claimed
per-callback isolation. -/
theorem claim_C4_counterexample :
    (mGet cexState.altTargetSubscribers "a").getD [] = [1, 2] ∧
      (setAltTarget thrOn1 "a" (some ⟨3, 4⟩) cexState).notified =
        [(1, some ⟨3, 4⟩)] ∧
      (setAltTarget thrOn1 "a" (some ⟨3, 4⟩) cexState).threw = true := by decide

/-- C4 amended: every publish of an anchor or virtual-point change invokes
the registered callbacks in registration order with the published value, and
the store mutation — performed before the notification loop — is unaffected
by callback exceptions; but when some callback throws, the exception
propagates into the publisher's control flow and delivery stops at the
throwing callback, so callbacks registered after it are not notified (full
delivery is only guaranteed when no callback throws). -/
theorem claim_C4_publish_fault_behaviour (thr thr2 : Nat → Bool) (id : String)
    (p : Option AltTarget) (el : Option Target) (s : SysState) :
    ((∀ cb ∈ (mGet s.altTargetSubscribers id).getD [], thr cb = false) →
      (setAltTarget thr id p s).notified =
          ((mGet s.altTargetSubscribers id).getD []).map (fun cb => (cb, p)) ∧
        (setAltTarget thr id p s).threw = false) ∧
      (setAltTarget thr id p s).threw =
        ((mGet s.altTargetSubscribers id).getD []).any thr ∧
      (setAltTarget thr2 id p s).state = (setAltTarget thr id p s).state ∧
      (∃ t, (mGet s.altTargetSubscribers id).getD [] =
        (setAltTarget thr id p s).notified.map Prod.fst ++ t) ∧
      (∀ pr ∈ (setAltTarget thr id p s).notified, pr.2 = p) ∧
      ((∀ cb ∈ (mGet s.targetSubscribers id).getD [], thr cb = false) →
        (setTargetReference thr id el s).notified =
            ((mGet s.targetSubscribers id).getD []).map (fun cb => (cb, el)) ∧
          (setTargetReference thr id el s).threw = false) ∧
      (setTargetReference thr id el s).threw =
        ((mGet s.targetSubscribers id).getD []).any thr ∧
      (setTargetReference thr2 id el s).state = (setTargetReference thr id el s).state ∧
      (∃ t, (mGet s.targetSubscribers id).getD [] =
        (setTargetReference thr id el s).notified.map Prod.fst ++ t) ∧
      (∀ pr ∈ (setTargetReference thr id el s).notified, pr.2 = el) := by
  refine ⟨?_, ?_, ?_, ?_, ?_, ?_, ?_, ?_, ?_, ?_⟩
  · intro h
    cases p <;> simp [setAltTarget, runCallbacks_no_throw _ _ _ h]
  · cases p <;> simp [setAltTarget, runCallbacks_threw]
  · cases p <;> rfl
  · cases p <;> exact (runCallbacks_order _ _ _).1
  · cases p <;> exact (runCallbacks_order _ _ _).2
  · intro h
    cases el with
    | none => simp [setTargetReference, runCallbacks_no_throw _ _ _ h]
    | some e =>
      cases htr : mGet s.timeoutRefs id <;>
        simp [setTargetReference, htr, runCallbacks_no_throw _ _ _ h]
  · cases el with
    | none => simp [setTargetReference, runCallbacks_threw]
    | some e =>
      cases htr : mGet s.timeoutRefs id <;>
        simp [setTargetReference, htr, runCallbacks_threw]
  · cases el with
    | none => rfl
    | some e => cases htr : mGet s.timeoutRefs id <;> rfl
  · cases el with
    | none => exact (runCallbacks_order _ _ _).1
    | some e =>
      cases htr : mGet s.timeoutRefs id <;>
        · simp only [setTargetReference, htr]
          exact (runCallbacks_order _ _ _).1
  · cases el with
    | none => exact (runCallbacks_order _ _ _).2
    | some e =>
      cases htr : mGet s.timeoutRefs id <;>
        · simp only [setTargetReference, htr]
          exact (runCallbacks_order _ _ _).2

/-- C4 witness: with callbacks `[1, 2]` registered for `"a"` and no callback
throwing, the publish delivers to both callbacks in registration order and
no exception escapes. -/
theorem claim_C4_witness :
    (∀ cb ∈ (mGet cexState.altTargetSubscribers "a").getD [], thrNever cb = false) ∧
      ((setAltTarget thrNever "a" (some ⟨3, 4⟩) cexState).notified =
          ((mGet cexState.altTargetSubscribers "a").getD []).map
            (fun cb => (cb, some ⟨3, 4⟩)) ∧
        (setAltTarget thrNever "a" (some ⟨3, 4⟩) cexState).threw = false) :=
  ⟨by decide,
    (claim_C4_publish_fault_behaviour thrNever thrNever "a" (some ⟨3, 4⟩) none
      cexState).1 (by decide)⟩

/-- C5: the instant the anchor is set absent, its entry is removed from the
target map and every target subscriber is invoked with `null` within that
same synchronous `setTargetReference` call (notification is not deferred to
the grace timer; the hypothesis only rules out a throwing subscriber
aborting delivery), while the virtual-point, follower-state and content maps
are left completely untouched. -/
theorem claim_C5_absent_publishes_immediately (thr : Nat → Bool) (id : String)
    (s : SysState)
    (hnothrow : ∀ cb ∈ (mGet s.targetSubscribers id).getD [], thr cb = false) :
    mGet (setTargetReference thr id none s).state.followTargets id = none ∧
      (setTargetReference thr id none s).notified =
        ((mGet s.targetSubscribers id).getD []).map
          (fun cb => (cb, (none : Option Target))) ∧
      (setTargetReference thr id none s).state.altTargets = s.altTargets ∧
      (setTargetReference thr id none s).state.followerStates = s.followerStates ∧
      (setTargetReference thr id none s).state.followerContentRefs =
        s.followerContentRefs := by
  refine ⟨?_, ?_, rfl, rfl, rfl⟩
  · simp [setTargetReference, mGet_mDel_self]
  · simp [setTargetReference, runCallbacks_no_throw _ _ _ hnothrow]

/-- C5 witness: on the concrete state where `"c"` has target subscribers
`[4, 5]` plus content, a virtual point and an anchor, setting the anchor
absent removes the target entry, notifies `4` then `5` with `null`
immediately, and leaves the other three fact maps untouched. -/
theorem claim_C5_witness :
    (∀ cb ∈ (mGet w5State.targetSubscribers "c").getD [], thrNever cb = false) ∧
      (setTargetReference thrNever "c" none w5State).notified =
        ((mGet w5State.targetSubscribers "c").getD []).map
          (fun cb => (cb, (none : Option Target))) :=
  ⟨by decide,
    (claim_C5_absent_publishes_immediately thrNever "c" w5State (by decide)).2.1⟩

theorem find?_handle_filtered (l : List Timer) (n : Nat) :
    (l.filter (fun tm => tm.handle != n)).find? (fun tm => tm.handle == n) = none := by
  rw [List.find?_eq_none]
  intro tm htm
  rw [List.mem_filter] at htm
  simpa using htm.2

/-- C1: from an ACTIVE state (content present for the id, no pending
eviction timer for it), setting the anchor absent enters GRACE — a 200ms
eviction timer is pending and its handle tracked — and a single
re-registration cancels that pending timer: afterwards no eviction timer for
the id remains pending, the tracked handle is gone, and firing the scheduled
handle is a no-op, so no eviction can occur.  Throughout both steps the
content entry stays the originally set content; neither step even touches
the content map (content changes are never published on any channel), and
the values published by the re-registration are the new anchor, so the
content is never published as absent to any subscriber. -/
theorem claim_C1_grace_survival (thr thr2 : Nat → Bool) (s : SysState) (id : String)
    (c : Content) (a2 : Target)
    (hcontent : mGet s.followerContentRefs id = some c)
    (hnotimer : ∀ tm ∈ s.pendingTimers, tm.followerId ≠ id) :
    mGet (setTargetReference thr id none s).state.timeoutRefs id = some s.nextHandle ∧
      (⟨s.nextHandle, id, s.now + 200⟩ : Timer) ∈
        (setTargetReference thr id none s).state.pendingTimers ∧
      mGet (setTargetReference thr id none s).state.followerContentRefs id = some c ∧
      mGet (setTargetReference thr2 id (some a2)
          (setTargetReference thr id none s).state).state.followerContentRefs id =
        some c ∧
      (∀ tm ∈ (setTargetReference thr2 id (some a2)
          (setTargetReference thr id none s).state).state.pendingTimers,
        tm.followerId ≠ id) ∧
      mGet (setTargetReference thr2 id (some a2)
          (setTargetReference thr id none s).state).state.timeoutRefs id = none ∧
      fireTimer s.nextHandle (setTargetReference thr2 id (some a2)
          (setTargetReference thr id none s).state).state =
        (setTargetReference thr2 id (some a2)
          (setTargetReference thr id none s).state).state ∧
      (∀ pr ∈ (setTargetReference thr2 id (some a2)
          (setTargetReference thr id none s).state).notified, pr.2 = some a2) := by
  refine ⟨?_, ?_, ?_, ?_, ?_, ?_, ?_, ?_⟩
  · simp [setTargetReference, mGet_mSet_self]
  · simp [setTargetReference]
  · simpa [setTargetReference] using hcontent
  · simpa [setTargetReference, mGet_mSet_self] using hcontent
  · intro tm htm
    simp only [setTargetReference, mGet_mSet_self] at htm
    rw [List.mem_filter] at htm
    rcases List.mem_append.mp htm.1 with h | h
    · exact hnotimer tm h
    · rw [List.mem_singleton] at h
      subst h
      simp at htm
  · simp [setTargetReference, mGet_mSet_self, mGet_mDel_self]
  · show fireTimer s.nextHandle _ = _
    simp only [setTargetReference, mGet_mSet_self]
    rw [fireTimer, find?_handle_filtered]
  · intro pr hpr
    simp only [setTargetReference, mGet_mSet_self] at hpr
    exact (runCallbacks_order thr2 (some a2) _).2 pr hpr

/-- C1 witness: on the concrete ACTIVE state where `"a"` holds content `7`
and anchor `1`, setting the anchor absent and re-registering anchor `2`
preserves content `7`, and firing the handle that was scheduled by the
absence is a no-op. -/
theorem claim_C1_witness :
    (mGet w1State.followerContentRefs "a" = some 7 ∧
        ∀ tm ∈ w1State.pendingTimers, tm.followerId ≠ "a") ∧
      mGet (setTargetReference thrNever "a" (some 2)
          (setTargetReference thrNever "a" none w1State).state).state.followerContentRefs
          "a" = some 7 ∧
      fireTimer w1State.nextHandle (setTargetReference thrNever "a" (some 2)
          (setTargetReference thrNever "a" none w1State).state).state =
        (setTargetReference thrNever "a" (some 2)
          (setTargetReference thrNever "a" none w1State).state).state :=
  ⟨⟨by decide, by decide⟩,
    (claim_C1_grace_survival thrNever thrNever w1State "a" 7 2
        (by decide) (by decide)).2.2.2.1,
    (claim_C1_grace_survival thrNever thrNever w1State "a" 7 2
        (by decide) (by decide)).2.2.2.2.2.2.1⟩

/-- C2: with no re-registration, setting the anchor absent schedules an
eviction timeout with a fixed 200ms delay, and once due (here after `d ≥
200ms` has passed) firing it removes all four facts, all three subscriber
sets and the tracked timeout handle for the id from the store and removes
the id from the active follower set — a subsequent get of any fact returns
absent. -/
theorem claim_C2_grace_expiry (thr : Nat → Bool) (s : SysState) (id : String)
    (d : Nat) (hd : 200 ≤ d)
    (hfresh : ∀ tm ∈ s.pendingTimers, tm.handle < s.nextHandle) :
    let s1 := (setTargetReference thr id none s).state
    let s3 := fireTimer s.nextHandle (advanceTime d s1)
    (⟨s.nextHandle, id, s.now + 200⟩ : Timer) ∈ s1.pendingTimers ∧
      mGet s3.followTargets id = none ∧
      mGet s3.altTargets id = none ∧
      mGet s3.followerStates id = none ∧
      mGet s3.followerContentRefs id = none ∧
      mGet s3.targetSubscribers id = none ∧
      mGet s3.altTargetSubscribers id = none ∧
      mGet s3.followerStateSubscribers id = none ∧
      mGet s3.timeoutRefs id = none ∧
      id ∉ s3.activeFollowerIds := by
  intro s1 s3
  have hfind : (advanceTime d s1).pendingTimers.find?
      (fun tm => tm.handle == s.nextHandle) =
      some ⟨s.nextHandle, id, s.now + 200⟩ := by
    show (s.pendingTimers ++ [(⟨s.nextHandle, id, s.now + 200⟩ : Timer)]).find?
        (fun tm => tm.handle == s.nextHandle) =
      some ⟨s.nextHandle, id, s.now + 200⟩
    rw [List.find?_append]
    have h1 : s.pendingTimers.find? (fun tm => tm.handle == s.nextHandle) = none := by
      rw [List.find?_eq_none]
      intro tm htm
      have := hfresh tm htm
      simp only [beq_iff_eq]
      omega
    rw [h1]
    simp [List.find?]
  have hle : (Timer.mk s.nextHandle id (s.now + 200)).fireAt ≤ (advanceTime d s1).now := by
    show s.now + 200 ≤ s.now + d
    exact Nat.add_le_add_left hd s.now
  have hstep : s3 = evictionCallback id
      { advanceTime d s1 with
        pendingTimers := (advanceTime d s1).pendingTimers.filter
          (fun t2 => t2.handle != s.nextHandle) } := by
    show fireTimer s.nextHandle (advanceTime d s1) = _
    rw [fireTimer, hfind]
    simp only [hle, if_true]
  have hmem : (⟨s.nextHandle, id, s.now + 200⟩ : Timer) ∈ s1.pendingTimers := by
    show (⟨s.nextHandle, id, s.now + 200⟩ : Timer) ∈
      s.pendingTimers ++ [(⟨s.nextHandle, id, s.now + 200⟩ : Timer)]
    simp
  refine ⟨hmem, ?_, ?_, ?_, ?_, ?_, ?_, ?_, ?_, ?_⟩ <;>
    rw [hstep] <;>
    simp [evictionCallback, mGet_mDel_self, List.mem_filter]

/-- C2 witness: on the concrete state where `"b"` holds all four facts and
one subscriber of each kind, setting the anchor absent and letting 250ms
pass before the scheduled handle fires leaves no content entry for `"b"` and
no target subscriber set. -/
theorem claim_C2_witness :
    (200 ≤ 250 ∧ ∀ tm ∈ w2State.pendingTimers, tm.handle < w2State.nextHandle) ∧
      mGet (fireTimer w2State.nextHandle (advanceTime 250
          (setTargetReference thrNever "b" none w2State).state)).followerContentRefs
        "b" = none ∧
      mGet (fireTimer w2State.nextHandle (advanceTime 250
          (setTargetReference thrNever "b" none w2State).state)).targetSubscribers
        "b" = none :=
  ⟨⟨by decide, by decide⟩,
    (claim_C2_grace_expiry thrNever w2State "b" 250 (by decide) (by decide)).2.2.2.2.1,
    (claim_C2_grace_expiry thrNever w2State "b" 250 (by decide) (by decide)).2.2.2.2.2.1⟩

/-- C10: setting the anchor for `"x"` absent twice (at t=0 and t=50)
schedules two eviction timers, but the timeout map tracks only the most
recently scheduled handle (the second `set` overwrote the first without
cancelling it); re-registering at t=100 — before the latest grace window
(t=250) elapses — cancels only the tracked timer, the earlier untracked
timer (due t=200) stays pending, and when it fires it evicts the whole
record (content, anchor, subscribers, active id) despite the
re-registration. -/
theorem claim_C10_untracked_timer_evicts :
    c10AfterSecondAbsent.pendingTimers = [⟨0, "x", 200⟩, ⟨1, "x", 250⟩] ∧
      mGet c10AfterSecondAbsent.timeoutRefs "x" = some 1 ∧
      c10AfterReRegister.pendingTimers = [⟨0, "x", 200⟩] ∧
      mGet c10AfterReRegister.timeoutRefs "x" = none ∧
      c10AfterReRegister.now = 100 ∧
      mGet c10AfterReRegister.followTargets "x" = some 2 ∧
      mGet c10AfterReRegister.followerContentRefs "x" = some 7 ∧
      "x" ∈ c10AfterReRegister.activeFollowerIds ∧
      mGet c10Final.followerContentRefs "x" = none ∧
      mGet c10Final.followTargets "x" = none ∧
      mGet c10Final.targetSubscribers "x" = none ∧
      "x" ∉ c10Final.activeFollowerIds := by decide

/-- C3: in every reachable provider state a follower unit is rendered in the
overlay portal iff content is present for the id (the portal iterates the
active ids and skips any whose content is absent, and the active set tracks
content presence exactly); setting content to a value stores it and renders
the unit, and setting it to absent removes both the content entry and the
unit within the same synchronous `setFollowerContent` step. -/
theorem claim_C3_follower_iff_content (s : SysState) (hs : Reachable s) (id : String) :
    (id ∈ renderedFollowerIds s ↔ (mGet s.followerContentRefs id).isSome) ∧
      (∀ c : Content,
        mGet (setFollowerContent id (some c) s).followerContentRefs id = some c ∧
          id ∈ renderedFollowerIds (setFollowerContent id (some c) s)) ∧
      mGet (setFollowerContent id none s).followerContentRefs id = none ∧
      id ∉ (setFollowerContent id none s).activeFollowerIds ∧
      id ∉ renderedFollowerIds (setFollowerContent id none s) := by
  have hinv := reachable_activeMatchesContent hs
  refine ⟨?_, ?_, ?_, ?_, ?_⟩
  · rw [renderedFollowerIds, List.mem_filter]
    constructor
    · exact fun h => h.2
    · exact fun h => ⟨(hinv id).mpr h, h⟩
  · intro c
    refine ⟨mGet_mSet_self _ _ _, ?_⟩
    rw [renderedFollowerIds, List.mem_filter]
    constructor
    · show id ∈ (if id ∈ s.activeFollowerIds then s.activeFollowerIds
        else s.activeFollowerIds ++ [id])
      split <;> simp_all
    · simp [setFollowerContent, mGet_mSet_self]
  · exact mGet_mDel_self _ _
  · show id ∉ s.activeFollowerIds.filter (fun x => x != id)
    rw [List.mem_filter]
    simp
  · rw [renderedFollowerIds, List.mem_filter]
    intro h
    have := h.1
    rw [show (setFollowerContent id none s).activeFollowerIds =
        s.activeFollowerIds.filter (fun x => x != id) from rfl, List.mem_filter] at this
    simp at this

/-- C3 witness: starting from the reachable state in which `"a"` was given
content `1`, the follower unit for `"a"` is rendered iff its content is
present, and clearing the content removes both within the same step. -/
theorem claim_C3_witness :
    Reachable (setFollowerContent "a" (some 1) initialState) ∧
      ("a" ∈ renderedFollowerIds (setFollowerContent "a" (some 1) initialState) ↔
        (mGet (setFollowerContent "a" (some 1) initialState).followerContentRefs
          "a").isSome) ∧
      "a" ∉ renderedFollowerIds
        (setFollowerContent "a" none (setFollowerContent "a" (some 1) initialState)) :=
  have hr : Reachable (setFollowerContent "a" (some 1) initialState) :=
    Reachable.stepSetFollowerContent "a" (some 1) Reachable.init
  ⟨hr, (claim_C3_follower_iff_content (setFollowerContent "a" (some 1) initialState)
      hr "a").1,
    (claim_C3_follower_iff_content (setFollowerContent "a" (some 1) initialState)
      hr "a").2.2.2.2⟩

end FollowerSystem
